import Mathlib

/-!
Verification of the Salus Coordination-of-Benefits pipeline
(`backend/agent.py`): a shallow embedding of the four analysis stages
(`extract_bill_info`, `check_private_insurance`, `check_public_aid`,
`coordinate_benefits`), of the line-oriented `KEY: value` reply parsing
they perform, and of the LangGraph orchestration
(`build_analysis_graph`: extractor → adjuster → social_worker →
coordinator, with `logs` merged by list concatenation and scalar keys
overwritten).

Modelling conventions:
- Python floats are modelled as `ℚ`; monetary formulas (`* 0.7`,
  `min remaining (remaining * 0.5)`, `max 0 (total - priv - pub)`) are
  exact in `ℚ`.
- The external Gemini client and the MongoDB lookups are modelled by an
  environment `Env`: `hasClient` mirrors the module-level `client`
  being non-`None`; each stage's single `generate_content` call is an
  oracle value (`CallOutcome`), either the reply text or a raised
  exception; `insurancePlanDb` / `govProgramDb` mirror
  `find_insurance_plan("Sun Life")` / `find_government_program(region)`.
- Python string operations (`in`, `split`, `split(sep, 1)`, `strip`,
  `replace`, `lower`, slicing) are re-implemented structurally over
  `List Char` so that concrete runs reduce by `decide`.
- `float(...)` is modelled on the inputs the parser can feed it after
  stripping `$` and `,`: optionally signed plain decimal literals
  (`-12`, `3.5`, `.5`, `5.`); anything else fails, matching the bare
  `except` fallbacks in the source.
- Each stage function returns exactly the keys of the dict the Python
  node returns, plus instrumentation flags (`llmCallAttempted`,
  `dbLookupPerformed`) that record which external effects the control
  flow reached; the flags mirror the position of the calls in the
  source and carry no data back into the pipeline.
-/

namespace Salus

/-! ### Python-style string primitives (structural, kernel-reducible) -/

/-- First occurrence of `tok` in a character list: `some (before, after)`
splits around the match, `none` if absent (`tok` is never empty at use
sites, mirroring Python's `in` / `split`). -/
def findTok (tok : List Char) : List Char → Option (List Char × List Char)
  | [] => none
  | c :: cs =>
    if tok.isPrefixOf (c :: cs) then some ([], (c :: cs).drop tok.length)
    else
      match findTok tok cs with
      | some (pre, post) => some (c :: pre, post)
      | none => none

/-- Python `tok in s` (substring containment). -/
def containsSub (s tok : String) : Bool := (findTok tok.data s.data).isSome

/-- Fueled repeated split; fuel `l.length + 1` is always enough for a
non-empty separator. -/
def splitTokFuel (tok : List Char) : Nat → List Char → List (List Char)
  | 0, l => [l]
  | fuel + 1, l =>
    match findTok tok l with
    | none => [l]
    | some (pre, post) => pre :: splitTokFuel tok fuel post

/-- Python `s.split(sep)` (all occurrences, empty pieces kept). -/
def pySplit (s tok : String) : List String :=
  (splitTokFuel tok.data (s.data.length + 1) s.data).map String.mk

/-- Python `s.split(sep, 1)`. -/
def pySplitOnce (s tok : String) : List String :=
  match findTok tok.data s.data with
  | none => [s]
  | some (pre, post) => [String.mk pre, String.mk post]

/-- Python `line.split(':')[1]` — the text between the first and second
colon (used for the numeric fields `COVERAGE_AMOUNT` / `AID_AMOUNT`).
Use sites guard with containment of a token ending in `:`, so index 1
exists and the `getD` default is never taken. -/
def afterColon1 (line : String) : String := (pySplit line ":").getD 1 ""

/-- Python `line.split(':', 1)[1]` — everything after the first colon
(used for the free-text fields). -/
def afterColonRest (line : String) : String := (pySplitOnce line ":").getD 1 ""

/-- Python `s.strip()` (whitespace at both ends). -/
def pyStrip (s : String) : String :=
  String.mk (((s.data.dropWhile Char.isWhitespace).reverse.dropWhile Char.isWhitespace).reverse)

/-- Python `s.replace(old, new)` for a non-empty `old` (all occurrences). -/
def pyReplace (s old new : String) : String :=
  String.mk (List.intercalate new.data (splitTokFuel old.data (s.data.length + 1) s.data))

/-- Python `s.lower()` (ASCII case folding, which is all the use site
`program_found.lower() != 'none'` needs). -/
def pyLower (s : String) : String := String.mk (s.data.map Char.toLower)

/-- Python `s[:n]`. -/
def pyTake (s : String) (n : Nat) : String := String.mk (s.data.take n)

/-! ### Python `float(...)` on plain signed decimal literals -/

/-- Value of a digit string. -/
def digitsVal (l : List Char) : ℕ := l.foldl (fun a c => 10 * a + (c.toNat - 48)) 0

/-- Unsigned decimal literal scan: returns `(mantissa, decimals)` so the
value is `mantissa / 10 ^ decimals`; accepts `12`, `12.5`, `.5`, `5.`,
rejects everything else. -/
def pyFloatPartsCore (cs : List Char) : Option (ℕ × ℕ) :=
  let ip := cs.takeWhile (fun c => c ≠ '.')
  match cs.dropWhile (fun c => c ≠ '.') with
  | [] => if ip ≠ [] ∧ ip.all Char.isDigit then some (digitsVal ip, 0) else none
  | _ :: fp =>
    if (ip ≠ [] ∨ fp ≠ []) ∧ ip.all Char.isDigit ∧ fp.all Char.isDigit then
      some (digitsVal ip * 10 ^ fp.length + digitsVal fp, fp.length)
    else none

/-- Optionally signed decimal literal scan. -/
def pyFloatParts : List Char → Option (Bool × ℕ × ℕ)
  | '-' :: rest => (pyFloatPartsCore rest).map (fun p => (true, p))
  | '+' :: rest => (pyFloatPartsCore rest).map (fun p => (false, p))
  | cs => (pyFloatPartsCore cs).map (fun p => (false, p))

/-- Python `float(s)` on the plain signed decimal literals reachable
from the reply parsers; `none` models the `ValueError` caught by the
bare `except` clauses. -/
def pyFloat (s : String) : Option ℚ :=
  (pyFloatParts s.data).map fun p =>
    (if p.1 then (-1 : ℚ) else 1) * (p.2.1 : ℚ) / (10 : ℚ) ^ p.2.2

/-- The numeric-field coercion used by both reply parsers:
`float(line.split(':')[1].strip().replace('$', '').replace(',', ''))`. -/
def coerceMoney (s : String) : Option ℚ :=
  pyFloat (pyReplace (pyReplace (pyStrip s) "$" "") "," "")

/-! ### Display formatting (`f"{x:,.2f}"` and `f"{x:.2f}"`); feeds log
text only, no parsed value ever flows through it -/

/-- Two-digit cent field. -/
def twoDigits (n : ℕ) : String := if n < 10 then "0" ++ toString n else toString n

/-- Comma grouping over a reversed digit list. -/
def groupRev : List Char → List Char
  | a :: b :: c :: d :: rest => a :: b :: c :: ',' :: groupRev (d :: rest)
  | l => l

/-- Decimal rendering of a natural with thousands separators. -/
def commaNat (n : ℕ) : String := String.mk ((groupRev (toString n).data.reverse).reverse)

/-- Python `f"{q:.2f}"` (nearest cent; display only). -/
def fmtF2 (q : ℚ) : String :=
  let cents : ℤ := round (|q| * 100)
  (if q < 0 then "-" else "") ++ toString (cents / 100).toNat ++ "." ++ twoDigits (cents % 100).toNat

/-- Python `f"{q:,.2f}"` (nearest cent, comma-grouped; display only). -/
def fmtMoney2 (q : ℚ) : String :=
  let cents : ℤ := round (|q| * 100)
  (if q < 0 then "-" else "") ++ commaNat (cents / 100).toNat ++ "." ++ twoDigits (cents % 100).toNat

/-! ### Data model (`AgentState` and the external environment) -/

/-- The `bill_data` dict as the pipeline nodes read it (`.get` with the
defaults used in `agent.py`); `none` models an absent key or `None`. -/
structure BillData where
  total    : Option ℚ
  service  : Option String
  services : List String
  provider : Option String

/-- Insurance plan document returned by `find_insurance_plan` (the
fields `check_private_insurance` reads). -/
structure InsurancePlan where
  provider : String
  plan_name : String
  prescription_coverage : Option ℚ
  annual_max : ℚ
  deductible : ℚ

/-- Government program document returned by `find_government_program`
(the fields `check_public_aid` reads). -/
structure GovProgram where
  program_id : String
  name : String
  description : String
  coverage_rate : Option ℚ
  eligibility : List String
  max_copay : ℚ

/-- The fields of LangGraph's `AgentState` that the four analysis nodes
read or write (the chat-only fields `messages`, `file_path`,
`user_message`, `analysis_complete`, `history` are untouched by the
analysis graph and omitted). `logs` carries the `operator.add`
annotation: node updates are concatenated, never replaced. -/
structure AgentState where
  bill_data        : BillData
  policy_id        : String
  region           : String
  private_coverage : ℚ
  public_coverage  : ℚ
  final_cost       : ℚ
  logs             : List String

/-- Outcome of one `client.models.generate_content` call: the reply
text, or a raised exception (network error, quota, ...). -/
inductive CallOutcome where
  | success (text : String)
  | failure

/-- External world for one pipeline run: whether the module-level
Gemini `client` is configured, the oracle outcome of each stage's
single call, and the two MongoDB lookups. -/
structure Env where
  hasClient       : Bool
  adjusterCall    : CallOutcome
  socialCall      : CallOutcome
  coordinatorCall : CallOutcome
  insurancePlanDb : Option InsurancePlan
  govProgramDb    : String → Option GovProgram

/-- `bill_data.get('total', 0)` as the adjuster, social worker and
coordinator read it. -/
def billTotalOf (s : AgentState) : ℚ := s.bill_data.total.getD 0

/-- `remaining = bill_total - private_coverage` as computed by
`check_public_aid`. -/
def remainingOf (s : AgentState) : ℚ := billTotalOf s - s.private_coverage

/-! ### Stage 1: `extract_bill_info` -/

/-- The dict returned by node 1 (keys `bill_data`, `logs`). -/
structure ExtractorUpdate where
  bill_data : BillData
  logs : List String

/-- Node 1, `extract_bill_info`: normalizes the caller-supplied
`bill_data` (`.get('total', 0) or 0` sends an absent or falsy total to
`0`, which under the `Option ℚ` typing is `Option.getD 0`), passes
`services` and `provider` through, and narrates five log lines. Total
Lean function: the source path raises nothing for numeric-or-absent
totals. -/
def extract_bill_info (state : AgentState) : ExtractorUpdate :=
  let bill_data := state.bill_data
  let bill_total := bill_data.total.getD 0
  let services := bill_data.services
  let service_type := bill_data.service.getD "Medical Services"
  let provider := bill_data.provider.getD "Unknown"
  let serviceLog :=
    if services ≠ [] then
      "Extractor: Found " ++ toString services.length ++ " service(s): " ++
        String.intercalate ", " (services.take 3)
    else
      "Extractor: Service type: " ++ service_type
  { bill_data := { total := some bill_total, service := some service_type,
                   services := services, provider := some provider },
    logs := "Extractor: Starting bill analysis..." ::
            ("Extractor: Document source: " ++ provider) ::
            serviceLog ::
            ("Extractor: Total bill amount: $" ++ fmtMoney2 bill_total) ::
            ["Extractor: Analysis complete. Passing to Adjuster..."] }

/-! ### Stage 2: `check_private_insurance` -/

/-- The dict returned by node 2 (keys `private_coverage`, `logs`), plus
the call-attempt flag. -/
structure AdjusterUpdate where
  private_coverage : ℚ
  logs : List String
  llmCallAttempted : Bool

/-- `policy_id[:8] if policy_id else 'N/A'`. -/
def policyIdShort (policy_id : String) : String :=
  if policy_id = "" then "N/A" else pyTake policy_id 8

/-- Accumulator of the adjuster's reply-parsing loop: the running
`coverage_amount` and the log list. -/
structure AdjParseAcc where
  coverage : ℚ
  logs : List String

/-- One iteration of the adjuster's `for line in text.split('\n')`
body: three independent containment tests (`REASONING:`,
`COVERAGE_AMOUNT:`, `ASSESSMENT:`), sequential overwrite of
`coverage_amount`, and the inner `except` falling back to
`bill_total * 0.7` when the coercion fails. -/
def adjParseLine (bill_total : ℚ) (acc : AdjParseAcc) (line : String) : AdjParseAcc :=
  let acc :=
    if containsSub line "REASONING:" then
      { acc with logs := acc.logs ++
          ["Adjuster Agent [REASONING]: " ++ pyTake (pyStrip (afterColonRest line)) 150 ++ "..."] }
    else acc
  let acc :=
    if containsSub line "COVERAGE_AMOUNT:" then
      { acc with coverage := (coerceMoney (afterColon1 line)).getD (bill_total * 0.7) }
    else acc
  if containsSub line "ASSESSMENT:" then
    { acc with logs := acc.logs ++
        ["Adjuster Agent [ASSESSMENT]: " ++ pyStrip (afterColonRest line)] }
  else acc

/-- Node 2, `check_private_insurance`. The plan's fetched
`prescription_coverage` is read into `coverage_rate` only to be
interpolated into the prompt string (`plan_info`); the reply is the
`env.adjusterCall` oracle, so the rate has no effect on any returned
value — the fallback multiplier is the literal `0.7` in all three
fallback positions of the source. -/
def check_private_insurance (env : Env) (state : AgentState) : AdjusterUpdate :=
  let policy_id := state.policy_id
  let bill_total := state.bill_data.total.getD 0
  let services := state.bill_data.services
  let service_type := state.bill_data.service.getD "Medical Services"
  let logs := ["Adjuster Agent: Initializing...",
               "Adjuster Agent: Loading insurance adjuster persona...",
               "Adjuster Agent: Analyzing claim for policy #" ++ policyIdShort policy_id,
               "Adjuster Agent: Bill amount: $" ++ fmtF2 bill_total,
               "Adjuster Agent: Services: " ++
                 (if services ≠ [] then String.intercalate ", " services else service_type),
               "Adjuster Agent: Querying insurance database..."]
  let logs := logs ++
    (match env.insurancePlanDb with
     | some plan => ["Adjuster Agent: Found plan: " ++ plan.provider ++ " " ++ plan.plan_name]
     | none => ["Adjuster Agent: No plan in database, using default coverage rates"])
  if env.hasClient ∧ 0 < bill_total then
    match env.adjusterCall with
    | .success text =>
      let logs := logs ++ ["Adjuster Agent: Connecting to Gemini LLM...",
                           "Adjuster Agent: Processing with insurance expertise...",
                           "Adjuster Agent: LLM response received"]
      let parsed := (pySplit text "\n").foldl (adjParseLine bill_total)
                      { coverage := 0, logs := logs }
      { private_coverage := parsed.coverage,
        logs := parsed.logs ++
          ["Adjuster Agent: Coverage approved: $" ++ fmtMoney2 parsed.coverage,
           "Adjuster Agent: Analysis complete. Handing off to Social Worker Agent..."],
        llmCallAttempted := true }
    | .failure =>
      let coverage := bill_total * 0.7
      { private_coverage := coverage,
        logs := logs ++ ["Adjuster Agent: Connecting to Gemini LLM...",
                         "Adjuster Agent: Processing with insurance expertise...",
                         "Adjuster Agent: LLM unavailable, using fallback calculation...",
                         "Adjuster Agent: Fallback coverage: $" ++ fmtMoney2 coverage,
                         "Adjuster Agent: Analysis complete. Handing off to Social Worker Agent..."],
        llmCallAttempted := true }
  else
    let coverage := bill_total * 0.7
    { private_coverage := coverage,
      logs := logs ++
        ["Adjuster Agent: Standard coverage applied: $" ++ fmtMoney2 coverage,
         "Adjuster Agent: Analysis complete. Handing off to Social Worker Agent..."],
      llmCallAttempted := false }

/-! ### Stage 3: `check_public_aid` -/

/-- The dict returned by node 3 (keys `public_coverage`, `logs`), plus
the call-attempt and lookup flags. -/
structure SocialWorkerUpdate where
  public_coverage : ℚ
  logs : List String
  llmCallAttempted : Bool
  dbLookupPerformed : Bool

/-- Accumulator of the social worker's reply-parsing loop. -/
structure SocParseAcc where
  program_found : String
  public_aid : ℚ
  logs : List String

/-- One iteration of the social worker's parsing loop: four independent
containment tests (`REASONING:`, `PROGRAM_FOUND:`, `AID_AMOUNT:`,
`RECOMMENDATION:`); the `AID_AMOUNT` coercion failure is caught by the
inner `except` and yields `0.0`. -/
def socParseLine (acc : SocParseAcc) (line : String) : SocParseAcc :=
  let acc :=
    if containsSub line "REASONING:" then
      { acc with logs := acc.logs ++
          ["Social Worker Agent [REASONING]: " ++
            pyTake (pyStrip (afterColonRest line)) 150 ++ "..."] }
    else acc
  let acc :=
    if containsSub line "PROGRAM_FOUND:" then
      let pf := pyStrip (afterColonRest line)
      let pfLogs :=
        if pyLower pf ≠ "none" then
          acc.logs ++ ["Social Worker Agent: Found program: " ++ pf]
        else acc.logs
      { acc with program_found := pf, logs := pfLogs }
    else acc
  let acc :=
    if containsSub line "AID_AMOUNT:" then
      { acc with public_aid := (coerceMoney (afterColon1 line)).getD 0 }
    else acc
  if containsSub line "RECOMMENDATION:" then
    { acc with logs := acc.logs ++
        ["Social Worker Agent [RECOMMENDATION]: " ++ pyStrip (afterColonRest line)] }
  else acc

/-- Node 3, `check_public_aid`. The `find_government_program(region)`
lookup sits before the `remaining` branch in the source and therefore
runs unconditionally; the `min(remaining, remaining * 0.5)` fallback
sits inside the `except` handler of the Gemini call, so it is reachable
only when a client is configured, `remaining > 0` held (the call
guard), and the call raised. -/
def check_public_aid (env : Env) (state : AgentState) : SocialWorkerUpdate :=
  let region := state.region
  let bill_total := state.bill_data.total.getD 0
  let private_coverage := state.private_coverage
  let remaining := bill_total - private_coverage
  let logs := ["Social Worker Agent: Initializing...",
               "Social Worker Agent: Loading social services expertise...",
               "Social Worker Agent: Patient region: " ++ region,
               "Social Worker Agent: Remaining balance after insurance: $" ++ fmtMoney2 remaining,
               "Social Worker Agent: Querying government programs database..."]
  let logs := logs ++
    (match env.govProgramDb region with
     | some prog => ["Social Worker Agent: Found program: " ++ prog.name]
     | none => ["Social Worker Agent: No programs in database, using general knowledge"])
  if env.hasClient ∧ 0 < remaining then
    match env.socialCall with
    | .success text =>
      let logs := logs ++ ["Social Worker Agent: Connecting to Gemini LLM...",
                           "Social Worker Agent: Analyzing eligibility for assistance programs...",
                           "Social Worker Agent: LLM response received"]
      let parsed := (pySplit text "\n").foldl socParseLine
                      { program_found := "No program", public_aid := 0, logs := logs }
      let logs :=
        if 0 < parsed.public_aid then
          parsed.logs ++ ["Social Worker Agent: Aid secured: $" ++ fmtMoney2 parsed.public_aid]
        else
          parsed.logs ++ ["Social Worker Agent: No additional aid programs found"]
      { public_coverage := parsed.public_aid,
        logs := logs ++
          ["Social Worker Agent: Search complete. Handing off to Coordinator Agent..."],
        llmCallAttempted := true, dbLookupPerformed := true }
    | .failure =>
      let logs := logs ++ ["Social Worker Agent: Connecting to Gemini LLM...",
                           "Social Worker Agent: Analyzing eligibility for assistance programs...",
                           "Social Worker Agent: LLM unavailable, using fallback..."]
      if 0 < remaining ∧ (region = "Ontario" ∨ region = "Canada") then
        let public_aid := min remaining (remaining * 0.5)
        { public_coverage := public_aid,
          logs := logs ++
            ["Social Worker Agent: Fallback - Ontario Works: $" ++ fmtMoney2 public_aid,
             "Social Worker Agent: Search complete. Handing off to Coordinator Agent..."],
          llmCallAttempted := true, dbLookupPerformed := true }
      else
        { public_coverage := 0,
          logs := logs ++
            ["Social Worker Agent: Search complete. Handing off to Coordinator Agent..."],
          llmCallAttempted := true, dbLookupPerformed := true }
  else
    let logs := logs ++
      (if remaining ≤ 0 then
        ["Social Worker Agent: No remaining balance - patient fully covered!"]
      else
        ["Social Worker Agent: Checking local programs..."])
    { public_coverage := 0,
      logs := logs ++
        ["Social Worker Agent: Search complete. Handing off to Coordinator Agent..."],
      llmCallAttempted := false, dbLookupPerformed := true }

/-! ### Stage 4: `coordinate_benefits` -/

/-- The dict returned by node 4 — exactly the keys `final_cost` and
`logs`; the node does not put `private_coverage` or `public_coverage`
(nor the local `summary`) into its update. -/
structure CoordinatorUpdate where
  final_cost : ℚ
  logs : List String

/-- Accumulator of the coordinator's reply-parsing loop (`summary` is a
local that never leaves the node). -/
structure CoordParseAcc where
  summary : String
  logs : List String

/-- One iteration of the coordinator's parsing loop (`SUMMARY:`,
`SAVINGS:`, `FINAL_MESSAGE:`). -/
def coordParseLine (acc : CoordParseAcc) (line : String) : CoordParseAcc :=
  let acc :=
    if containsSub line "SUMMARY:" then
      let sm := pyStrip (afterColonRest line)
      { summary := sm, logs := acc.logs ++ ["Coordinator Agent [SUMMARY]: " ++ sm] }
    else acc
  let acc :=
    if containsSub line "SAVINGS:" then
      { acc with logs := acc.logs ++
          ["Coordinator Agent [SAVINGS]: " ++ pyStrip (afterColonRest line)] }
    else acc
  if containsSub line "FINAL_MESSAGE:" then
    { acc with logs := acc.logs ++
        ["Coordinator Agent [FINAL]: " ++ pyStrip (afterColonRest line)] }
  else acc

/-- The `"=" * 50` separator line. -/
def eqBar : String := String.mk (List.replicate 50 '=')

/-- Node 4, `coordinate_benefits`: computes
`you_pay = max(0, bill_total - private - public)` before any branching;
the client branch affects only narration, and the returned update
carries `final_cost = you_pay` in every branch. -/
def coordinate_benefits (env : Env) (state : AgentState) : CoordinatorUpdate :=
  let bill_total := state.bill_data.total.getD 0
  let priv := state.private_coverage
  let pub := state.public_coverage
  let you_pay := max 0 (bill_total - priv - pub)
  let logs := ["Coordinator Agent: Initializing...",
               "Coordinator Agent: Loading coordination expertise...",
               "Coordinator Agent: Reviewing all benefits...",
               "Coordinator Agent: Original bill: $" ++ fmtMoney2 bill_total,
               "Coordinator Agent: Private insurance contribution: $" ++ fmtMoney2 priv,
               "Coordinator Agent: Government aid contribution: $" ++ fmtMoney2 pub,
               "Coordinator Agent: Calculating final patient responsibility..."]
  let logs :=
    if env.hasClient then
      match env.coordinatorCall with
      | .success text =>
        let logs := logs ++ ["Coordinator Agent: Connecting to Gemini LLM...",
                             "Coordinator Agent: Generating final report...",
                             "Coordinator Agent: LLM response received"]
        ((pySplit text "\n").foldl coordParseLine
          { summary := "You pay $" ++ fmtMoney2 you_pay, logs := logs }).logs
      | .failure =>
        let summary :=
          if you_pay = 0 then
            "Great news! Your bill is fully covered through coordinated benefits."
          else
            "Through coordinated benefits, your responsibility is $" ++ fmtMoney2 you_pay ++ "."
        logs ++ ["Coordinator Agent: Connecting to Gemini LLM...",
                 "Coordinator Agent: Generating final report...",
                 "Coordinator Agent: Using standard summary...",
                 "Coordinator Agent: " ++ summary]
    else
      logs ++ ["Coordinator Agent: Final amount: $" ++ fmtMoney2 you_pay]
  { final_cost := you_pay,
    logs := logs ++
      ["Coordinator Agent: Coordination of Benefits complete!",
       eqBar,
       "FINAL RESULT: Patient pays $" ++ fmtMoney2 you_pay,
       eqBar] }

/-! ### Orchestration (`build_analysis_graph` + LangGraph state merge) -/

/-- Merge of node 1's update into the running state: `bill_data` is a
plain key (overwritten), `logs` carries `operator.add` (concatenated). -/
def applyExtractor (s : AgentState) (u : ExtractorUpdate) : AgentState :=
  { s with bill_data := u.bill_data, logs := s.logs ++ u.logs }

/-- Merge of node 2's update (`private_coverage` overwritten, `logs`
concatenated). -/
def applyAdjuster (s : AgentState) (u : AdjusterUpdate) : AgentState :=
  { s with private_coverage := u.private_coverage, logs := s.logs ++ u.logs }

/-- Merge of node 3's update (`public_coverage` overwritten, `logs`
concatenated). -/
def applySocialWorker (s : AgentState) (u : SocialWorkerUpdate) : AgentState :=
  { s with public_coverage := u.public_coverage, logs := s.logs ++ u.logs }

/-- Merge of node 4's update (`final_cost` overwritten, `logs`
concatenated); `private_coverage` and `public_coverage` are not keys of
the update and keep their values. -/
def applyCoordinator (s : AgentState) (u : CoordinatorUpdate) : AgentState :=
  { s with final_cost := u.final_cost, logs := s.logs ++ u.logs }

/-- State after the `extractor` node. -/
def afterExtractor (s : AgentState) : AgentState :=
  applyExtractor s (extract_bill_info s)

/-- State after the `extractor → adjuster` edge. -/
def afterAdjuster (env : Env) (s : AgentState) : AgentState :=
  applyAdjuster (afterExtractor s) (check_private_insurance env (afterExtractor s))

/-- State after the `adjuster → social_worker` edge. -/
def afterSocialWorker (env : Env) (s : AgentState) : AgentState :=
  applySocialWorker (afterAdjuster env s) (check_public_aid env (afterAdjuster env s))

/-- `analysis_graph.invoke`: the four nodes in the edge order fixed by
`build_analysis_graph` (`extractor → adjuster → social_worker →
coordinator → END`). -/
def runAnalysis (env : Env) (s : AgentState) : AgentState :=
  applyCoordinator (afterSocialWorker env s)
    (coordinate_benefits env (afterSocialWorker env s))

/-! ### Per-field views of the social worker's parse loop -/

/-- The `PROGRAM_FOUND` overwrite in isolation (sequential
last-match-wins semantics of the parse loop, restricted to the one
field). -/
def progStep (pf : String) (line : String) : String :=
  if containsSub line "PROGRAM_FOUND:" then pyStrip (afterColonRest line) else pf

/-- The `AID_AMOUNT` overwrite in isolation, with the per-line `except`
fallback `0.0`. -/
def aidStep (a : ℚ) (line : String) : ℚ :=
  if containsSub line "AID_AMOUNT:" then (coerceMoney (afterColon1 line)).getD 0 else a

/-- The adjuster's `COVERAGE_AMOUNT` overwrite in isolation, with the
per-line `except` fallback `bill_total * 0.7`. -/
def covStep (t : ℚ) (c : ℚ) (line : String) : ℚ :=
  if containsSub line "COVERAGE_AMOUNT:" then (coerceMoney (afterColon1 line)).getD (t * 0.7)
  else c

/-! ### Concrete fixtures used by witnesses and counterexamples -/

/-- Environment with no Gemini client configured and empty databases
(`client is None`, lookups return nothing). -/
def noClientEnv : Env :=
  { hasClient := false, adjusterCall := CallOutcome.failure,
    socialCall := CallOutcome.failure, coordinatorCall := CallOutcome.failure,
    insurancePlanDb := none, govProgramDb := fun _ => none }

/-- Environment with a client whose every call raises (network error). -/
def failingCallEnv : Env :=
  { hasClient := true, adjusterCall := CallOutcome.failure,
    socialCall := CallOutcome.failure, coordinatorCall := CallOutcome.failure,
    insurancePlanDb := none, govProgramDb := fun _ => none }

/-- Environment whose adjuster reply parses but carries no
`COVERAGE_AMOUNT` field at all. -/
def adjNoAmountEnv : Env :=
  { hasClient := true,
    adjusterCall := CallOutcome.success "REASONING: Standard claim\nASSESSMENT: Looks fine",
    socialCall := CallOutcome.failure, coordinatorCall := CallOutcome.failure,
    insurancePlanDb := none, govProgramDb := fun _ => none }

/-- Environment whose adjuster reply carries a negative
`COVERAGE_AMOUNT`. -/
def negAmountEnv : Env :=
  { hasClient := true,
    adjusterCall := CallOutcome.success "COVERAGE_AMOUNT: -100",
    socialCall := CallOutcome.failure, coordinatorCall := CallOutcome.failure,
    insurancePlanDb := none, govProgramDb := fun _ => none }

/-- A $1000 uploaded bill record. -/
def bill1000 : BillData :=
  { total := some 1000, service := none, services := [], provider := none }

/-- Initial state for a $1000 bill in Ontario (the initial state built
by `main.py` before `analysis_graph.invoke`). -/
def ontarioState : AgentState :=
  { bill_data := bill1000, policy_id := "POL-12345", region := "Ontario",
    private_coverage := 0, public_coverage := 0, final_cost := 0, logs := [] }

/-- Mid-pipeline state in which insurance already covers more than the
bill (`remaining = 100 - 200 < 0`). -/
def coveredState : AgentState :=
  { bill_data := { total := some 100, service := none, services := [], provider := none },
    policy_id := "POL-12345", region := "Ontario",
    private_coverage := 200, public_coverage := 0, final_cost := 0, logs := [] }

/-- Mid-pipeline state carrying the negative private coverage accepted
from a `COVERAGE_AMOUNT: -100` reply. -/
def overpaidState : AgentState :=
  { bill_data := bill1000, policy_id := "POL-12345", region := "Ontario",
    private_coverage := -100, public_coverage := 0, final_cost := 0, logs := [] }

/-- An extractor input whose `bill_data` carries no `provider` (and no
`services`) key, like the fallback bill dict `main.py` builds when no
document was uploaded. -/
def fallbackBillState : AgentState :=
  { bill_data := { total := some 150, service := some "Pharmacy",
                   services := [], provider := none },
    policy_id := "POL-12345", region := "Ontario",
    private_coverage := 0, public_coverage := 0, final_cost := 0, logs := [] }

/-! ### Parse-loop lemmas -/

/-- Coverage component of one adjuster parse step: it is overwritten
exactly when the line contains `COVERAGE_AMOUNT:`. -/
theorem adjParseLine_coverage (t : ℚ) (acc : AdjParseAcc) (line : String) :
    (adjParseLine t acc line).coverage =
      if containsSub line "COVERAGE_AMOUNT:" then
        (coerceMoney (afterColon1 line)).getD (t * 0.7)
      else acc.coverage := by
  by_cases h1 : containsSub line "REASONING:" = true <;>
  by_cases h2 : containsSub line "COVERAGE_AMOUNT:" = true <;>
  by_cases h3 : containsSub line "ASSESSMENT:" = true <;>
  simp [adjParseLine, h1, h2, h3]

/-- Aid component of one social worker parse step. -/
theorem socParseLine_public_aid (acc : SocParseAcc) (line : String) :
    (socParseLine acc line).public_aid = aidStep acc.public_aid line := by
  by_cases h1 : containsSub line "REASONING:" = true <;>
  by_cases h2 : containsSub line "PROGRAM_FOUND:" = true <;>
  by_cases h3 : containsSub line "AID_AMOUNT:" = true <;>
  by_cases h4 : containsSub line "RECOMMENDATION:" = true <;>
  simp [socParseLine, aidStep, h1, h2, h3, h4]

/-- Program component of one social worker parse step. -/
theorem socParseLine_program_found (acc : SocParseAcc) (line : String) :
    (socParseLine acc line).program_found = progStep acc.program_found line := by
  by_cases h1 : containsSub line "REASONING:" = true <;>
  by_cases h2 : containsSub line "PROGRAM_FOUND:" = true <;>
  by_cases h3 : containsSub line "AID_AMOUNT:" = true <;>
  by_cases h4 : containsSub line "RECOMMENDATION:" = true <;>
  simp [socParseLine, progStep, h1, h2, h3, h4]

/-- If no line of `lines` contains `COVERAGE_AMOUNT:`, the fold leaves
the running `coverage_amount` untouched. -/
theorem foldl_adj_coverage_const (t : ℚ) (lines : List String) :
    ∀ acc : AdjParseAcc,
      (∀ l ∈ lines, containsSub l "COVERAGE_AMOUNT:" = false) →
      (lines.foldl (adjParseLine t) acc).coverage = acc.coverage := by
  induction lines with
  | nil => intro acc _; rfl
  | cons l ls ih =>
    intro acc h
    rw [List.foldl_cons, ih _ (fun x hx => h x (List.mem_cons_of_mem _ hx)),
        adjParseLine_coverage]
    simp [h l (List.mem_cons_self _ _)]

/-- If no line of `lines` contains `AID_AMOUNT:`, the fold leaves the
running `public_aid` untouched. -/
theorem foldl_soc_aid_const (lines : List String) :
    ∀ acc : SocParseAcc,
      (∀ l ∈ lines, containsSub l "AID_AMOUNT:" = false) →
      (lines.foldl socParseLine acc).public_aid = acc.public_aid := by
  induction lines with
  | nil => intro acc _; rfl
  | cons l ls ih =>
    intro acc h
    rw [List.foldl_cons, ih _ (fun x hx => h x (List.mem_cons_of_mem _ hx)),
        socParseLine_public_aid]
    simp [aidStep, h l (List.mem_cons_self _ _)]

/-- Last-match-wins for the adjuster's `COVERAGE_AMOUNT`: when `ln` is
the final matching line, the fold's result is the coercion of `ln`'s
value (or the `t * 0.7` fallback when the coercion fails), regardless
of any earlier matches in `pre`. -/
theorem foldl_adj_coverage_last (t : ℚ) (acc : AdjParseAcc) (pre post : List String)
    (ln : String) (hln : containsSub ln "COVERAGE_AMOUNT:" = true)
    (hpost : ∀ l ∈ post, containsSub l "COVERAGE_AMOUNT:" = false) :
    ((pre ++ ln :: post).foldl (adjParseLine t) acc).coverage =
      (coerceMoney (afterColon1 ln)).getD (t * 0.7) := by
  rw [List.foldl_append, List.foldl_cons, foldl_adj_coverage_const t post _ hpost,
      adjParseLine_coverage]
  simp [hln]

/-- Last-match-wins for the social worker's `AID_AMOUNT`. -/
theorem foldl_soc_aid_last (acc : SocParseAcc) (pre post : List String)
    (ln : String) (hln : containsSub ln "AID_AMOUNT:" = true)
    (hpost : ∀ l ∈ post, containsSub l "AID_AMOUNT:" = false) :
    ((pre ++ ln :: post).foldl socParseLine acc).public_aid =
      (coerceMoney (afterColon1 ln)).getD 0 := by
  rw [List.foldl_append, List.foldl_cons, foldl_soc_aid_const post _ hpost,
      socParseLine_public_aid]
  simp [aidStep, hln]

/-- The social worker's parse decomposes per field: the program
component is the `PROGRAM_FOUND`-only fold and the aid component is the
`AID_AMOUNT`-only fold, so a coercion failure in one field cannot
disturb the other. -/
theorem foldl_soc_decompose (lines : List String) :
    ∀ acc : SocParseAcc,
      (lines.foldl socParseLine acc).program_found =
        lines.foldl progStep acc.program_found ∧
      (lines.foldl socParseLine acc).public_aid =
        lines.foldl aidStep acc.public_aid := by
  induction lines with
  | nil => intro acc; exact ⟨rfl, rfl⟩
  | cons l ls ih =>
    intro acc
    rw [List.foldl_cons, List.foldl_cons, List.foldl_cons]
    rcases ih (socParseLine acc l) with ⟨h1, h2⟩
    rw [h1, h2, socParseLine_program_found, socParseLine_public_aid]
    exact ⟨rfl, rfl⟩

/-- The adjuster's parse also decomposes: the coverage component is the
`COVERAGE_AMOUNT`-only fold, independent of the log bookkeeping. -/
theorem foldl_adj_coverage_decompose (t : ℚ) (lines : List String) :
    ∀ acc : AdjParseAcc,
      (lines.foldl (adjParseLine t) acc).coverage =
        lines.foldl (covStep t) acc.coverage := by
  induction lines with
  | nil => intro acc; rfl
  | cons l ls ih =>
    intro acc
    rw [List.foldl_cons, List.foldl_cons, ih, adjParseLine_coverage]
    rfl

/-! ### Stage-level lemmas -/

/-- When the client is configured, the bill is positive and the call
returns `text`, the adjuster's coverage is the `COVERAGE_AMOUNT`-only
fold over the reply's lines, started from the initialization `0.0`. -/
theorem adjuster_success_coverage (env : Env) (s : AgentState) (text : String)
    (hc : env.hasClient = true) (hcall : env.adjusterCall = CallOutcome.success text)
    (hpos : 0 < billTotalOf s) :
    (check_private_insurance env s).private_coverage =
      (pySplit text "\n").foldl (covStep (billTotalOf s)) 0 := by
  unfold check_private_insurance
  rw [if_pos ⟨hc, hpos⟩]
  simp only [hcall]
  exact foldl_adj_coverage_decompose _ _ _

/-- With no client configured the adjuster takes the `else` branch:
rule-based `bill_total * 0.7`, no call attempted. -/
theorem adjuster_no_client (env : Env) (s : AgentState) (hc : env.hasClient = false) :
    (check_private_insurance env s).private_coverage = billTotalOf s * 0.7 ∧
    (check_private_insurance env s).llmCallAttempted = false := by
  unfold check_private_insurance
  rw [if_neg (by simp [hc])]
  exact ⟨rfl, rfl⟩

/-- Whenever the client is absent or its adjuster call raises, the
coverage is `bill_total * 0.7` (the literal default rate), whatever
plan the lookup returned. -/
theorem adjuster_fallback (env : Env) (s : AgentState)
    (h : env.hasClient = false ∨ env.adjusterCall = CallOutcome.failure) :
    (check_private_insurance env s).private_coverage = billTotalOf s * 0.7 := by
  rcases h with hc | hf
  · exact (adjuster_no_client env s hc).1
  · unfold check_private_insurance
    by_cases hcb : env.hasClient = true ∧ 0 < s.bill_data.total.getD 0
    · rw [if_pos hcb, hf]
      rfl
    · rw [if_neg hcb]
      rfl

/-- With no client configured the social worker takes the `else`
branch: `public_coverage = 0`, no call attempted. -/
theorem social_no_client (env : Env) (s : AgentState) (hc : env.hasClient = false) :
    (check_public_aid env s).public_coverage = 0 ∧
    (check_public_aid env s).llmCallAttempted = false := by
  unfold check_public_aid
  rw [if_neg (by simp [hc])]
  exact ⟨rfl, rfl⟩

/-- When `remaining ≤ 0` the social worker returns zero aid and
attempts no call, logs the fully-covered line — but the
`find_government_program` lookup has already run. -/
theorem social_fully_covered (env : Env) (s : AgentState) (h : remainingOf s ≤ 0) :
    (check_public_aid env s).public_coverage = 0 ∧
    (check_public_aid env s).llmCallAttempted = false ∧
    (check_public_aid env s).dbLookupPerformed = true ∧
    "Social Worker Agent: No remaining balance - patient fully covered!" ∈
      (check_public_aid env s).logs := by
  rw [remainingOf, billTotalOf] at h
  have hnot : ¬ (env.hasClient = true ∧ 0 < s.bill_data.total.getD 0 - s.private_coverage) :=
    fun hx => absurd hx.2 (not_lt.mpr h)
  unfold check_public_aid
  rw [if_neg hnot]
  refine ⟨rfl, rfl, rfl, ?_⟩
  rcases hdb : env.govProgramDb s.region with _ | prog <;> simp [hdb, h]

/-- The extractor's log output is non-empty. -/
theorem extract_logs_ne_nil (s : AgentState) : (extract_bill_info s).logs ≠ [] := by
  simp [extract_bill_info]

/-- The adjuster's log output is non-empty. -/
theorem adjuster_logs_ne_nil (env : Env) (s : AgentState) :
    (check_private_insurance env s).logs ≠ [] := by
  unfold check_private_insurance
  by_cases hcb : env.hasClient = true ∧ 0 < s.bill_data.total.getD 0
  · rw [if_pos hcb]
    cases hA : env.adjusterCall <;> simp
  · rw [if_neg hcb]
    simp

/-- The social worker's log output is non-empty. -/
theorem social_logs_ne_nil (env : Env) (s : AgentState) :
    (check_public_aid env s).logs ≠ [] := by
  unfold check_public_aid
  by_cases hcb : env.hasClient = true ∧ 0 < s.bill_data.total.getD 0 - s.private_coverage
  · rw [if_pos hcb]
    cases hS : env.socialCall
    · simp
    · by_cases hfb : 0 < s.bill_data.total.getD 0 - s.private_coverage ∧
          (s.region = "Ontario" ∨ s.region = "Canada")
      · rw [if_pos hfb]
        simp
      · rw [if_neg hfb]
        simp
  · rw [if_neg hcb]
    simp

/-- The coordinator's log output is non-empty. -/
theorem coordinator_logs_ne_nil (env : Env) (s : AgentState) :
    (coordinate_benefits env s).logs ≠ [] := by
  unfold coordinate_benefits
  simp

/-- The later stages do not touch `private_coverage`: across the whole
run it is the adjuster's output. -/
theorem runAnalysis_private (env : Env) (s : AgentState) :
    (runAnalysis env s).private_coverage =
      (check_private_insurance env (afterExtractor s)).private_coverage := rfl

/-- Across the whole run `public_coverage` is the social worker's
output. -/
theorem runAnalysis_public (env : Env) (s : AgentState) :
    (runAnalysis env s).public_coverage =
      (check_public_aid env (afterAdjuster env s)).public_coverage := rfl

/-- Across the whole run `final_cost` is the coordinator's output. -/
theorem runAnalysis_final (env : Env) (s : AgentState) :
    (runAnalysis env s).final_cost =
      (coordinate_benefits env (afterSocialWorker env s)).final_cost := rfl

/-- `bill_data.total` after the extractor and the two middle merges. -/
theorem afterAdjuster_total (env : Env) (s : AgentState) :
    (afterAdjuster env s).bill_data.total = some (s.bill_data.total.getD 0) := rfl

/-! ### Claims -/

/-- Claim C1: for every bill total `T ≥ 0` and accumulated coverages
`private, public ≥ 0`, the terminal Coordinator stage sets
`finalCost = max(0, T - privateCoverage - publicCoverage)` — including
when `private + public > T`, since the equation is proved for all such
states — and its returned update (keys `final_cost`, `logs` only)
leaves `privateCoverage` and `publicCoverage` unchanged after the
LangGraph merge. -/
theorem C1_coordinator_clamp (env : Env) (s : AgentState)
    (hT : 0 ≤ billTotalOf s) (hpriv : 0 ≤ s.private_coverage)
    (hpub : 0 ≤ s.public_coverage) :
    (coordinate_benefits env s).final_cost =
      max 0 (billTotalOf s - s.private_coverage - s.public_coverage) ∧
    (applyCoordinator s (coordinate_benefits env s)).private_coverage = s.private_coverage ∧
    (applyCoordinator s (coordinate_benefits env s)).public_coverage = s.public_coverage :=
  ⟨rfl, rfl, rfl⟩

/-- Witness for C1 at the $1000 Ontario bill. -/
theorem C1_coordinator_clamp_witness :
    (coordinate_benefits noClientEnv ontarioState).final_cost =
      max 0 (billTotalOf ontarioState - ontarioState.private_coverage -
        ontarioState.public_coverage) ∧
    (applyCoordinator ontarioState
      (coordinate_benefits noClientEnv ontarioState)).private_coverage =
        ontarioState.private_coverage ∧
    (applyCoordinator ontarioState
      (coordinate_benefits noClientEnv ontarioState)).public_coverage =
        ontarioState.public_coverage :=
  C1_coordinator_clamp noClientEnv ontarioState
    (by norm_num [billTotalOf, ontarioState, bill1000])
    (by norm_num [ontarioState]) (by norm_num [ontarioState])

/-- Claim C2: running the whole pipeline with no reasoning client
yields `privateCoverage = 0.70 * T` exactly for every bill total
`T ≥ 0`, and the Adjuster attempts no external call. -/
theorem C2_pipeline_no_client_private (env : Env) (s0 : AgentState) (T : ℚ)
    (hc : env.hasClient = false) (hT : s0.bill_data.total = some T) (h0 : 0 ≤ T) :
    (runAnalysis env s0).private_coverage = 0.7 * T ∧
    (check_private_insurance env (afterExtractor s0)).llmCallAttempted = false := by
  have hbt : billTotalOf (afterExtractor s0) = T := by
    simp [billTotalOf, afterExtractor, applyExtractor, extract_bill_info, hT]
  constructor
  · rw [runAnalysis_private, (adjuster_no_client env _ hc).1, hbt, mul_comm]
  · exact (adjuster_no_client env _ hc).2

/-- Witness for C2 at `T = 1000`. -/
theorem C2_pipeline_no_client_private_witness :
    noClientEnv.hasClient = false ∧ ontarioState.bill_data.total = some 1000 ∧
    (0 : ℚ) ≤ 1000 ∧
    ((runAnalysis noClientEnv ontarioState).private_coverage = 0.7 * 1000 ∧
     (check_private_insurance noClientEnv
       (afterExtractor ontarioState)).llmCallAttempted = false) :=
  ⟨rfl, rfl, by norm_num,
    C2_pipeline_no_client_private noClientEnv ontarioState 1000 rfl rfl (by norm_num)⟩

/-- Claim C6: the pipeline is the strict composition
extract → adjudicate-private → adjudicate-public → coordinate; after
each stage the log equals the previous log plus that stage's non-empty
block, and the terminal log is exactly the in-order concatenation of
the four blocks (append-only, no reordering, no truncation). -/
theorem C6_stage_order_and_log_concat (env : Env) (s0 : AgentState) :
    ∃ L1 L2 L3 L4 : List String,
      L1 ≠ [] ∧ L2 ≠ [] ∧ L3 ≠ [] ∧ L4 ≠ [] ∧
      (afterExtractor s0).logs = s0.logs ++ L1 ∧
      (afterAdjuster env s0).logs = s0.logs ++ (L1 ++ L2) ∧
      (afterSocialWorker env s0).logs = s0.logs ++ (L1 ++ L2 ++ L3) ∧
      (runAnalysis env s0).logs = s0.logs ++ (L1 ++ L2 ++ L3 ++ L4) ∧
      (afterExtractor s0).logs ≠ [] ∧ (afterAdjuster env s0).logs ≠ [] ∧
      (afterSocialWorker env s0).logs ≠ [] ∧ (runAnalysis env s0).logs ≠ [] ∧
      runAnalysis env s0 =
        applyCoordinator (afterSocialWorker env s0)
          (coordinate_benefits env (afterSocialWorker env s0)) := by
  refine ⟨(extract_bill_info s0).logs,
    (check_private_insurance env (afterExtractor s0)).logs,
    (check_public_aid env (afterAdjuster env s0)).logs,
    (coordinate_benefits env (afterSocialWorker env s0)).logs,
    extract_logs_ne_nil s0, adjuster_logs_ne_nil env _, social_logs_ne_nil env _,
    coordinator_logs_ne_nil env _, rfl, ?_, ?_, ?_, ?_, ?_, ?_, ?_, rfl⟩ <;>
  simp [runAnalysis, afterSocialWorker, afterAdjuster, afterExtractor,
    applyCoordinator, applySocialWorker, applyAdjuster, applyExtractor,
    List.append_assoc, extract_logs_ne_nil s0, adjuster_logs_ne_nil env,
    social_logs_ne_nil env, coordinator_logs_ne_nil env]

/-- Claim C7: whenever the Adjuster's reasoning call fails or no client
is configured, the fallback coverage is `bill.total * 0.70` for every
possible plan lookup result — the fetched plan rate never acts as the
fallback multiplier. -/
theorem C7_fallback_ignores_plan_rate (env : Env) (s : AgentState)
    (h : env.hasClient = false ∨ env.adjusterCall = CallOutcome.failure) :
    (check_private_insurance env s).private_coverage = billTotalOf s * 0.7 ∧
    ∀ p₁ p₂ : Option InsurancePlan,
      (check_private_insurance { env with insurancePlanDb := p₁ } s).private_coverage =
        (check_private_insurance { env with insurancePlanDb := p₂ } s).private_coverage := by
  refine ⟨adjuster_fallback env s h, fun p₁ p₂ => ?_⟩
  have h1 : ({ env with insurancePlanDb := p₁ } : Env).hasClient = false ∨
      ({ env with insurancePlanDb := p₁ } : Env).adjusterCall = CallOutcome.failure := h
  have h2 : ({ env with insurancePlanDb := p₂ } : Env).hasClient = false ∨
      ({ env with insurancePlanDb := p₂ } : Env).adjusterCall = CallOutcome.failure := h
  rw [adjuster_fallback _ s h1, adjuster_fallback _ s h2]

/-- Witness for C7: failing call with a client configured. -/
theorem C7_fallback_ignores_plan_rate_witness :
    (check_private_insurance failingCallEnv ontarioState).private_coverage =
      billTotalOf ontarioState * 0.7 ∧
    ∀ p₁ p₂ : Option InsurancePlan,
      (check_private_insurance { failingCallEnv with insurancePlanDb := p₁ }
        ontarioState).private_coverage =
      (check_private_insurance { failingCallEnv with insurancePlanDb := p₂ }
        ontarioState).private_coverage :=
  C7_fallback_ignores_plan_rate failingCallEnv ontarioState (Or.inr rfl)

/-- Claim C10 counterexample: on a `bill_data` without a `provider`
key (as `main.py` supplies when no document was uploaded) the
extractor's partial update carries `provider = "Unknown"` — the
`.get('provider', 'Unknown')` default written back at `agent.py:140,159`
— so the provider is not returned unchanged, refuting the claim's
"provider unchanged" conjunct on an input inside its domain. -/
theorem C10_counterexample :
    fallbackBillState.bill_data.provider = none ∧
    (extract_bill_info fallbackBillState).bill_data.provider = some "Unknown" ∧
    (extract_bill_info fallbackBillState).bill_data.provider ≠
      fallbackBillState.bill_data.provider :=
  ⟨rfl, rfl, by simp [extract_bill_info, fallbackBillState]⟩

/-- Claim C10 (amended): for every input `bill_data` whose total is a
number or absent/falsy, the Extractor never raises (it is a total
function of the input); it normalizes an absent/falsy total to `0`
(`Option.getD 0` under this typing), returns the `services` sequence
unchanged, returns `provider` unchanged when present but defaulted to
`"Unknown"` when absent (`provider.getD "Unknown"`), and appends at
least three log lines (it appends exactly five). -/
theorem C10_amended_extractor_normalizes_and_defaults (s : AgentState) :
    (extract_bill_info s).bill_data.total = some (s.bill_data.total.getD 0) ∧
    (extract_bill_info s).bill_data.services = s.bill_data.services ∧
    (extract_bill_info s).bill_data.provider =
      some (s.bill_data.provider.getD "Unknown") ∧
    3 ≤ (extract_bill_info s).logs.length := by
  refine ⟨rfl, rfl, rfl, ?_⟩
  simp [extract_bill_info]

/-- A `COVERAGE_AMOUNT`-free reply leaves the coverage fold at its
start value. -/
theorem foldl_covStep_const (t c : ℚ) (lines : List String)
    (h : ∀ l ∈ lines, containsSub l "COVERAGE_AMOUNT:" = false) :
    lines.foldl (covStep t) c = c := by
  have h2 := foldl_adj_coverage_const t lines ⟨c, []⟩ h
  rwa [foldl_adj_coverage_decompose] at h2

/-- When the call succeeds but the reply has no `COVERAGE_AMOUNT` line
at all, the adjuster keeps the initialization `coverage_amount = 0.0`
(it reaches neither the inner `except` nor the outer fallback). -/
theorem adjuster_missing_amount_keeps_init (env : Env) (s : AgentState) (text : String)
    (hc : env.hasClient = true) (hcall : env.adjusterCall = CallOutcome.success text)
    (hpos : 0 < billTotalOf s)
    (habsent : ∀ l ∈ pySplit text "\n", containsSub l "COVERAGE_AMOUNT:" = false) :
    (check_private_insurance env s).private_coverage = 0 := by
  rw [adjuster_success_coverage env s text hc hcall hpos]
  exact foldl_covStep_const _ _ _ habsent

/-- End-to-end $1000 Ontario run with no client: the social worker's
fallback never fires (it lives in the call's `except` handler), so
`publicCoverage = 0` and `finalCost = max(0, 1000 - 700 - 0) = 300`. -/
theorem runAnalysis_no_client_ontario :
    (runAnalysis noClientEnv ontarioState).public_coverage = 0 ∧
    (runAnalysis noClientEnv ontarioState).final_cost = 300 := by
  refine ⟨?_, ?_⟩
  · rw [runAnalysis_public]
    exact (social_no_client _ _ rfl).1
  · have hT3 : billTotalOf (afterSocialWorker noClientEnv ontarioState) = 1000 := by
      simp [billTotalOf, afterSocialWorker, applySocialWorker, afterAdjuster, applyAdjuster,
        afterExtractor, applyExtractor, extract_bill_info, ontarioState, bill1000]
    have hE : billTotalOf (afterExtractor ontarioState) = 1000 := by
      simp [billTotalOf, afterExtractor, applyExtractor, extract_bill_info,
        ontarioState, bill1000]
    have hpriv3 : (afterSocialWorker noClientEnv ontarioState).private_coverage = 700 := by
      have hs : (afterSocialWorker noClientEnv ontarioState).private_coverage =
          (check_private_insurance noClientEnv (afterExtractor ontarioState)).private_coverage :=
        rfl
      rw [hs, (adjuster_no_client _ _ rfl).1, hE]
      norm_num
    have hpub3 : (afterSocialWorker noClientEnv ontarioState).public_coverage = 0 := by
      have hs : (afterSocialWorker noClientEnv ontarioState).public_coverage =
          (check_public_aid noClientEnv (afterAdjuster noClientEnv ontarioState)).public_coverage :=
        rfl
      rw [hs]
      exact (social_no_client _ _ rfl).1
    have hfc : (runAnalysis noClientEnv ontarioState).final_cost =
        max 0 (billTotalOf (afterSocialWorker noClientEnv ontarioState) -
          (afterSocialWorker noClientEnv ontarioState).private_coverage -
          (afterSocialWorker noClientEnv ontarioState).public_coverage) := rfl
    rw [hfc, hT3, hpriv3, hpub3,
      show (1000 : ℚ) - 700 - 0 = 300 by norm_num,
      max_eq_right (by norm_num : (0 : ℚ) ≤ 300)]

/-- The rule fallback of the social worker: only reachable through the
`except` handler, i.e. client configured, `remaining > 0`, call raised,
and region in {Ontario, Canada}. -/
theorem social_call_failure_fallback (env : Env) (s : AgentState)
    (hc : env.hasClient = true) (hf : env.socialCall = CallOutcome.failure)
    (hrem : 0 < remainingOf s) (hreg : s.region = "Ontario" ∨ s.region = "Canada") :
    (check_public_aid env s).public_coverage =
      min (remainingOf s) (remainingOf s * 0.5) := by
  rw [remainingOf, billTotalOf] at hrem
  unfold check_public_aid
  rw [if_pos ⟨hc, hrem⟩]
  simp only [hf]
  rw [if_pos ⟨hrem, hreg⟩]
  rfl

/-- Claim C3 counterexample: a successful reply that simply lacks the
`COVERAGE_AMOUNT` field leaves `privateCoverage` at the initialization
`0.0`, not at the claimed fallback `0.70 * bill.total = 700`. -/
theorem C3_counterexample :
    billTotalOf ontarioState = 1000 ∧
    (check_private_insurance adjNoAmountEnv ontarioState).private_coverage = 0 ∧
    (0 : ℚ) ≠ 0.7 * 1000 := by
  refine ⟨by norm_num [billTotalOf, ontarioState, bill1000], ?_, by norm_num⟩
  exact adjuster_missing_amount_keeps_init adjNoAmountEnv ontarioState
    "REASONING: Standard claim\nASSESSMENT: Looks fine" rfl rfl
    (by norm_num [billTotalOf, ontarioState, bill1000]) (by decide)

/-- Claim C3 (amended): when the call succeeds but the reply contains
no `COVERAGE_AMOUNT` line, the Adjuster does not throw (it is a total
function of the reply) but keeps `privateCoverage` at its
initialization `0.0` — the `0.70 * bill.total` fallback fires only when
a `COVERAGE_AMOUNT` line is present and its value fails coercion, or
when the call itself fails — and no parse-fallback notice is logged on
this path. -/
theorem C3_amended_missing_field_keeps_zero (env : Env) (s : AgentState) (text : String)
    (hc : env.hasClient = true) (hcall : env.adjusterCall = CallOutcome.success text)
    (hpos : 0 < billTotalOf s)
    (habsent : ∀ l ∈ pySplit text "\n", containsSub l "COVERAGE_AMOUNT:" = false) :
    (check_private_insurance env s).private_coverage = 0 :=
  adjuster_missing_amount_keeps_init env s text hc hcall hpos habsent

/-- Witness for the amended C3. -/
theorem C3_amended_missing_field_keeps_zero_witness :
    (check_private_insurance adjNoAmountEnv ontarioState).private_coverage = 0 :=
  C3_amended_missing_field_keeps_zero adjNoAmountEnv ontarioState
    "REASONING: Standard claim\nASSESSMENT: Looks fine" rfl rfl
    (by norm_num [billTotalOf, ontarioState, bill1000]) (by decide)

/-- Claim C4 counterexample: with no reasoning client, `remaining =
1000` in Ontario yields `publicCoverage = 0`, not `min(1000, 500) =
500`; and the end-to-end $1000 run yields `publicCoverage = 0` and
`finalCost = 300`, not `150` and `150`. -/
theorem C4_counterexample :
    remainingOf ontarioState = 1000 ∧
    (check_public_aid noClientEnv ontarioState).public_coverage = 0 ∧
    (0 : ℚ) ≠ min 1000 (1000 * 0.5) ∧
    (runAnalysis noClientEnv ontarioState).public_coverage = 0 ∧
    (runAnalysis noClientEnv ontarioState).final_cost = 300 ∧
    (300 : ℚ) ≠ 150 :=
  ⟨by norm_num [remainingOf, billTotalOf, ontarioState, bill1000],
   (social_no_client _ _ rfl).1,
   by norm_num [min_def],
   runAnalysis_no_client_ontario.1,
   runAnalysis_no_client_ontario.2,
   by norm_num⟩

/-- Claim C4 (amended): the `min(remaining, remaining * 0.5)` rule is
the `except`-handler fallback — it fires only when a client is
configured, `remaining > 0`, the call raises, and the region is Ontario
or Canada; with no client configured the stage returns `publicCoverage
= 0`, so the end-to-end $1000 Ontario run with no client yields
`publicCoverage = 0.0` and `finalCost = 300.0`. -/
theorem C4_amended_fallback_needs_failing_call (env : Env) (s : AgentState)
    (hc : env.hasClient = true) (hf : env.socialCall = CallOutcome.failure)
    (hrem : 0 < remainingOf s) (hreg : s.region = "Ontario" ∨ s.region = "Canada") :
    (check_public_aid env s).public_coverage =
      min (remainingOf s) (remainingOf s * 0.5) ∧
    (runAnalysis noClientEnv ontarioState).public_coverage = 0 ∧
    (runAnalysis noClientEnv ontarioState).final_cost = 300 :=
  ⟨social_call_failure_fallback env s hc hf hrem hreg,
   runAnalysis_no_client_ontario.1, runAnalysis_no_client_ontario.2⟩

/-- Witness for the amended C4: a configured client whose call raises,
Ontario, `remaining = 1000`. -/
theorem C4_amended_fallback_needs_failing_call_witness :
    (check_public_aid failingCallEnv ontarioState).public_coverage =
      min (remainingOf ontarioState) (remainingOf ontarioState * 0.5) ∧
    (runAnalysis noClientEnv ontarioState).public_coverage = 0 ∧
    (runAnalysis noClientEnv ontarioState).final_cost = 300 :=
  C4_amended_fallback_needs_failing_call failingCallEnv ontarioState rfl rfl
    (by norm_num [remainingOf, billTotalOf, ontarioState, bill1000]) (Or.inl rfl)

/-- Claim C5 counterexample: with `remaining = 100 - 200 ≤ 0` the
`find_government_program` lookup still runs (it sits before the
`remaining` branch in the source), contradicting "performs no program
lookup". -/
theorem C5_counterexample :
    remainingOf coveredState ≤ 0 ∧
    (check_public_aid noClientEnv coveredState).dbLookupPerformed = true :=
  ⟨by norm_num [remainingOf, billTotalOf, coveredState],
   (social_fully_covered noClientEnv coveredState
     (by norm_num [remainingOf, billTotalOf, coveredState])).2.2.1⟩

/-- Claim C5 (amended): when `remaining ≤ 0` the SocialWorker sets
`publicCoverage = 0`, attempts no reasoning call and logs that the
patient is already fully covered — but the government-program database
lookup is still performed unconditionally. -/
theorem C5_amended_fully_covered_still_looks_up (env : Env) (s : AgentState)
    (h : remainingOf s ≤ 0) :
    (check_public_aid env s).public_coverage = 0 ∧
    (check_public_aid env s).llmCallAttempted = false ∧
    "Social Worker Agent: No remaining balance - patient fully covered!" ∈
      (check_public_aid env s).logs ∧
    (check_public_aid env s).dbLookupPerformed = true := by
  obtain ⟨h1, h2, h3, h4⟩ := social_fully_covered env s h
  exact ⟨h1, h2, h4, h3⟩

/-- Witness for the amended C5. -/
theorem C5_amended_fully_covered_still_looks_up_witness :
    (check_public_aid noClientEnv coveredState).public_coverage = 0 ∧
    (check_public_aid noClientEnv coveredState).llmCallAttempted = false ∧
    "Social Worker Agent: No remaining balance - patient fully covered!" ∈
      (check_public_aid noClientEnv coveredState).logs ∧
    (check_public_aid noClientEnv coveredState).dbLookupPerformed = true :=
  C5_amended_fully_covered_still_looks_up noClientEnv coveredState
    (by norm_num [remainingOf, billTotalOf, coveredState])

/-- Claim C8: in both reply parsers a field token occurring on several
lines keeps the value of the last matching line (sequential overwrite);
numeric values are coerced after `strip` and removal of `$` and `,`;
and a coercion failure on one field only affects that field — each
field's result is its own fold over the lines, so the reply as a whole
is never discarded. -/
theorem C8_last_match_strip_independence (t : ℚ) (acc : AdjParseAcc) (sacc : SocParseAcc)
    (pre post : List String) (ln : String) :
    (containsSub ln "COVERAGE_AMOUNT:" = true →
      (∀ l ∈ post, containsSub l "COVERAGE_AMOUNT:" = false) →
      ((pre ++ ln :: post).foldl (adjParseLine t) acc).coverage =
        (coerceMoney (afterColon1 ln)).getD (t * 0.7)) ∧
    (containsSub ln "AID_AMOUNT:" = true →
      (∀ l ∈ post, containsSub l "AID_AMOUNT:" = false) →
      ((pre ++ ln :: post).foldl socParseLine sacc).public_aid =
        (coerceMoney (afterColon1 ln)).getD 0) ∧
    coerceMoney " $1,234.50" = some (1234.5 : ℚ) ∧
    coerceMoney " N/A " = none ∧
    ∀ lines : List String,
      (lines.foldl socParseLine sacc).program_found =
        lines.foldl progStep sacc.program_found ∧
      (lines.foldl socParseLine sacc).public_aid =
        lines.foldl aidStep sacc.public_aid := by
  refine ⟨foldl_adj_coverage_last t acc pre post ln, foldl_soc_aid_last sacc pre post ln,
    ?_, ?_, fun lines => foldl_soc_decompose lines sacc⟩
  · have h1 : pyReplace (pyReplace (pyStrip " $1,234.50") "$" "") "," "" = "1234.50" := by
      decide
    have h2 : pyFloatParts ("1234.50".data) = some (false, 123450, 2) := by decide
    rw [coerceMoney, h1, pyFloat, h2]
    norm_num
  · have h1 : pyReplace (pyReplace (pyStrip " N/A ") "$" "") "," "" = "N/A" := by decide
    have h2 : pyFloatParts ("N/A".data) = none := by decide
    rw [coerceMoney, h1, pyFloat, h2]
    rfl

/-- Witness for C8: two `AID_AMOUNT` lines — the later `$25` wins. -/
theorem C8_last_match_strip_independence_witness :
    ((["AID_AMOUNT: 10"] ++ "AID_AMOUNT: $25" :: ["RECOMMENDATION: apply soon"]).foldl
        socParseLine ⟨"No program", 0, []⟩).public_aid =
      (coerceMoney (afterColon1 "AID_AMOUNT: $25")).getD 0 ∧
    (coerceMoney (afterColon1 "AID_AMOUNT: $25")).getD 0 = 25 := by
  constructor
  · exact (C8_last_match_strip_independence 1000 ⟨0, []⟩ ⟨"No program", 0, []⟩
      ["AID_AMOUNT: 10"] ["RECOMMENDATION: apply soon"] "AID_AMOUNT: $25").2.1
      (by decide) (by decide)
  · have h1 : afterColon1 "AID_AMOUNT: $25" = " $25" := by decide
    have h2 : pyReplace (pyReplace (pyStrip " $25") "$" "") "," "" = "25" := by decide
    have h3 : pyFloatParts ("25".data) = some (false, 25, 0) := by decide
    rw [h1, coerceMoney, h2, pyFloat, h3]
    norm_num

/-- Claim C9: a negative `COVERAGE_AMOUNT` is accepted verbatim (no
non-negativity check), the Coordinator clamp still keeps
`finalCost ≥ 0` in every state, and with `privateCoverage = -100` on a
$1000 bill the final cost `1100` exceeds the bill total. -/
theorem C9_negative_amount_accepted :
    (check_private_insurance negAmountEnv ontarioState).private_coverage = -100 ∧
    (∀ (env : Env) (s : AgentState), 0 ≤ (coordinate_benefits env s).final_cost) ∧
    (coordinate_benefits noClientEnv overpaidState).final_cost = 1100 ∧
    billTotalOf overpaidState < (coordinate_benefits noClientEnv overpaidState).final_cost := by
  have hneg : coerceMoney (afterColon1 "COVERAGE_AMOUNT: -100") = some (-100) := by
    have h1 : afterColon1 "COVERAGE_AMOUNT: -100" = " -100" := by decide
    have h2 : pyReplace (pyReplace (pyStrip " -100") "$" "") "," "" = "-100" := by decide
    have h3 : pyFloatParts ("-100".data) = some (true, 100, 0) := by decide
    rw [h1, coerceMoney, h2, pyFloat, h3]
    norm_num
  have hfinal : (coordinate_benefits noClientEnv overpaidState).final_cost =
      max 0 (billTotalOf overpaidState - overpaidState.private_coverage -
        overpaidState.public_coverage) := rfl
  have hval : billTotalOf overpaidState - overpaidState.private_coverage -
      overpaidState.public_coverage = (1100 : ℚ) := by
    norm_num [billTotalOf, overpaidState, bill1000]
  refine ⟨?_, ?_, ?_, ?_⟩
  · rw [adjuster_success_coverage negAmountEnv ontarioState "COVERAGE_AMOUNT: -100" rfl rfl
      (by norm_num [billTotalOf, ontarioState, bill1000]),
      show pySplit "COVERAGE_AMOUNT: -100" "\n" = ["COVERAGE_AMOUNT: -100"] by decide]
    have hcv : containsSub "COVERAGE_AMOUNT: -100" "COVERAGE_AMOUNT:" = true := by decide
    simp [covStep, hcv, hneg]
  · intro env s
    have h : (coordinate_benefits env s).final_cost =
        max 0 (billTotalOf s - s.private_coverage - s.public_coverage) := rfl
    rw [h]
    exact le_max_left 0 _
  · rw [hfinal, hval, max_eq_right (by norm_num : (0 : ℚ) ≤ 1100)]
  · rw [hfinal, hval, max_eq_right (by norm_num : (0 : ℚ) ≤ 1100)]
    norm_num [billTotalOf, overpaidState, bill1000]

end Salus
